import Mathlib

/-!
Shallow embedding of `src/server/controllers/v1/comment.ts` (UBoard).

The controller wraps an ORM repository of rows.  We model the persistent
store as a `List Comment` of rows and each controller method as a pure
function from the store (plus its arguments) to a response together with
the updated store.  Persistence failures (a `save`/`create` that throws
or returns no row) are modelled by an explicit boolean oracle passed to
the method, since whether the underlying database call succeeds is
external to the controller code.
-/

namespace UBoard

/-- A stored row, with the fields the controller reads and writes
(`id`, `title`, `body`, `location`, `capacity`, `feedbackScore`,
`UserId`, `createdAt`). -/
structure Comment where
  id : String
  title : String
  body : String
  location : String
  capacity : Int
  feedbackScore : Int
  UserId : String
  createdAt : Nat
deriving Repr, DecidableEq

/-- Payload of a single-record response: `{ result?, message? }`. -/
structure RespData where
  result : Option Comment
  message : Option String
deriving Repr, DecidableEq

/-- A controller response `{ status, data? }`.  Methods whose TS type has a
mandatory `data` always return `some`; `deletePost`'s 204 branch returns
`{ status: 204 }` with no `data` at all, hence the `Option`. -/
structure Resp where
  status : Nat
  data : Option RespData
deriving Repr, DecidableEq

/-- Payload of the list response of `getComments`:
`{ result?, count?, message? }`. -/
structure CommentsData where
  result : Option (List Comment)
  count : Option Nat
  message : Option String
deriving Repr, DecidableEq

/-- Response of `getComments`. -/
structure CommentsResp where
  status : Nat
  data : CommentsData
deriving Repr, DecidableEq

/-- `MAX_RESULTS = 50`, the maximum number of results to return. -/
def MAX_RESULTS : Nat := 50

/-- `commentsRepo.findByPk(postID)` / `findOne({ where: { id: postID } })`:
the first stored row whose primary key equals `postID`. -/
def findByPk (store : List Comment) (postID : String) : Option Comment :=
  store.find? (fun c => c.id == postID)

/-- `deletePost(userId, postID)` (comment.ts lines 103-122): look the row up
by id; 404 with a message when absent; 401 with a message when
`result.UserId != userId`; otherwise destroy the row and answer a bare 204. -/
def deletePost (store : List Comment) (userId postID : String) :
    Resp × List Comment :=
  match findByPk store postID with
  | none =>
      (⟨404, some ⟨none, some ("Post " ++ postID ++ " could not be deleted.")⟩⟩,
       store)
  | some result =>
      if result.UserId ≠ userId then
        (⟨401, some ⟨none, some "Unauthorized to delete the post."⟩⟩, store)
      else
        (⟨204, none⟩, store.filter (fun c => ¬(c.id = postID)))

/-- `getComment(postID, userID)` (comment.ts lines 69-95): fetch the row by
primary key (the `userID` argument only shapes the projected `include`); 404
with a message when absent, else 200 with the row in `result`. -/
def getComment (store : List Comment) (postID userID : String) : Resp :=
  match findByPk store postID with
  | none =>
      ⟨404, some ⟨none, some ("Post " ++ postID ++ " could not be found")⟩⟩
  | some data => ⟨200, some ⟨some data, none⟩⟩

/-- Modelled from the spec: `getPost`, called by `vote` (line 139) and
`updatePost` (line 210), is defined elsewhere in the repository and is not
among the available source files.  Per the spec it loads the post by ID
("loads the post", "404 if not found"): 404 with a message when the row is
absent, 200 with the row in `result` otherwise. -/
def getPost (store : List Comment) (postID : String) : Resp :=
  match findByPk store postID with
  | none =>
      ⟨404, some ⟨none, some ("Post " ++ postID ++ " could not be found")⟩⟩
  | some data => ⟨200, some ⟨some data, none⟩⟩

/-- `instance.save()` on a loaded, possibly mutated row: the stored rows with
the same primary key are overwritten by the in-memory row. -/
def saveRow (store : List Comment) (row : Comment) : List Comment :=
  store.map (fun c => if c.id = row.id then row else c)

/-- `vote(postID, amount)` (comment.ts lines 130-160): load the post via
`getPost` and pass a non-200 answer through with the store untouched;
otherwise add `amount` to `feedbackScore` and save, answering 204 with the
mutated row on success, or 400 with a message when the save throws
(`saveOk = false`), leaving the store unchanged in that case.  The catch-all
arm also covers a 200 answer with no `result`, which `getPost` never
produces (the source asserts `result!` there). -/
def vote (store : List Comment) (postID : String) (amount : Int)
    (saveOk : Bool) : Resp × List Comment :=
  match getPost store postID with
  | ⟨200, some ⟨some post, _⟩⟩ =>
      let saved : Comment :=
        { post with feedbackScore := post.feedbackScore + amount }
      if saveOk then
        (⟨204, some ⟨some saved, none⟩⟩, saveRow store saved)
      else
        (⟨400, some ⟨none, some ("Could not " ++
            (if amount = 1 then "upvote" else "report") ++
            " post: " ++ postID)⟩⟩, store)
  | r => (r, store)

/-- JS truthiness test `!x` on an optional string argument: true when the
argument is `undefined` or the empty string. -/
def strFalsy : Option String → Bool
  | none => true
  | some s => s == ""

/-- `createPost(userID, title?, body?, location?, capacity?)` (comment.ts
lines 165-192): the guard `!title || !body || !location ||
capacity == undefined` answers 400 with a message (`!` treats an empty
string as missing, while `capacity == undefined` is false for `0`);
otherwise the row is inserted with the supplied fields and `UserId = userID`
(`newId` and `createdAt` stand for the database-assigned primary key and
timestamp, `feedbackScore` for its zero column default); a falsy row back
from `create` (`createOk = false`) answers 500 with a message, else 200 with
the created record.  The `getD` defaults are unreachable once the guard has
passed. -/
def createPost (store : List Comment) (userID : String)
    (title body location : Option String) (capacity : Option Int)
    (newId : String) (createdAt : Nat) (createOk : Bool) :
    Resp × List Comment :=
  if strFalsy title || strFalsy body || strFalsy location
      || capacity.isNone then
    (⟨400, some ⟨none, some "Missing fields."⟩⟩, store)
  else if createOk then
    let post : Comment :=
      ⟨newId, title.getD "", body.getD "", location.getD "",
       capacity.getD 0, 0, userID, createdAt⟩
    (⟨200, some ⟨some post, none⟩⟩, store ++ [post])
  else
    (⟨500, some ⟨none, some "Could not create the new post"⟩⟩, store)

/-- JS `x || y` for an optional string `x`: `y` when `x` is `undefined` or
the empty string (both falsy), else the supplied string. -/
def jsOrStr : Option String → String → String
  | none, old => old
  | some s, old => if s = "" then old else s

/-- JS `x || y` for an optional number `x`: `y` when `x` is `undefined` or
`0` (both falsy), else the supplied number. -/
def jsOrInt : Option Int → Int → Int
  | none, old => old
  | some n, old => if n = 0 then old else n

/-- `updatePost(currentUserId, postID, title?, body?, location?, capacity?)`
(comment.ts lines 199-231): load the row via `getPost`; when it exists and
is owned by the caller, overwrite each field with `supplied || existing` and
save — 200 with the updated record, or 500 with a message and the store
untouched when the save throws (`saveOk = false`); 401 with a message when
the row exists but is owned by someone else; 404 with a message when it does
not exist. -/
def updatePost (store : List Comment) (currentUserId postID : String)
    (title body location : Option String) (capacity : Option Int)
    (saveOk : Bool) : Resp × List Comment :=
  match (getPost store postID).data >>= (fun d => d.result) with
  | some post =>
      if post.UserId = currentUserId then
        let saved : Comment :=
          { post with
            title := jsOrStr title post.title,
            body := jsOrStr body post.body,
            location := jsOrStr location post.location,
            capacity := jsOrInt capacity post.capacity }
        if saveOk then (⟨200, some ⟨some saved, none⟩⟩, saveRow store saved)
        else (⟨500, some ⟨none, some "Could not update the post."⟩⟩, store)
      else
        (⟨401, some ⟨none, some "Not authorized to edit this post."⟩⟩, store)
  | none => (⟨404, some ⟨none, some "Could not find post."⟩⟩, store)

/-- The row order requested by `getComments`
(`order: [['createdAt', 'DESC']]`): creation time descending. -/
def createdDesc (a b : Comment) : Prop := b.createdAt ≤ a.createdAt

instance : DecidableRel createdDesc := fun _ _ => Nat.decLe _ _

instance : IsTotal Comment createdDesc :=
  ⟨fun a b => Nat.le_total b.createdAt a.createdAt⟩

instance : IsTrans Comment createdDesc :=
  ⟨fun _ _ _ hab hbc => le_trans hbc hab⟩

/-- Modelled from the spec: the row set fetched by the query `getComments`
issues.  The source hands the ORM a lookup with `limit`, `offset` and
`order: [['createdAt', 'DESC']]` options, and its own 200 return line is the
file's acknowledged unfinished edit (`data. as PostUser[]`), so the fetched
rows follow the spec's words: up to `limit` associated rows ordered by
creation time descending with `offset` applied, and no row set at all when
the parent record is absent. -/
def ormQuery (store : List Comment) (postID : String) (limit offset : Nat) :
    Option (List Comment) :=
  match findByPk store postID with
  | none => none
  | some _ =>
      some (((List.insertionSort createdDesc store).drop offset).take limit)

/-- `getComments(postID, limit, offset)` (comment.ts lines 27-60): the limit
handed to the query is `limit > MAX_RESULTS ? MAX_RESULTS : limit`; an
absent parent answers 404 with a message, else 200 with the fetched rows in
`result` and their count. -/
def getComments (store : List Comment) (postID : String)
    (limit offset : Nat) : CommentsResp :=
  match ormQuery store postID
      (if limit > MAX_RESULTS then MAX_RESULTS else limit) offset with
  | none =>
      ⟨404, ⟨none, none, some ("Post " ++ postID ++ " could not be found")⟩⟩
  | some rows => ⟨200, ⟨some rows, some rows.length, none⟩⟩

end UBoard

namespace UBoard

/-- The row `findByPk` answers satisfies the lookup predicate: its `id` is
the requested one. -/
theorem findByPk_id (store : List Comment) (postID : String) (p : Comment)
    (h : findByPk store postID = some p) : p.id = postID := by
  have := List.find?_some h
  simpa using this

/-- Saving a row whose `id` is the one a lookup finds makes the lookup find
exactly the saved row. -/
theorem findByPk_saveRow (store : List Comment) (postID : String)
    (p p' : Comment) (hfind : findByPk store postID = some p)
    (hid : p'.id = p.id) :
    findByPk (saveRow store p') postID = some p' := by
  have hp : p.id = postID := findByPk_id store postID p hfind
  induction store with
  | nil => simp [findByPk] at hfind
  | cons c cs ih =>
    by_cases hc : c.id = postID
    · have h1 : saveRow (c :: cs) p' = p' :: saveRow cs p' := by
        simp [saveRow, hc, hid, hp]
      rw [h1, findByPk, List.find?_cons_of_pos _ (by simp [hid, hp])]
    · have hfind' : findByPk cs postID = some p := by
        rw [findByPk, List.find?_cons_of_neg _ (by simp [hc])] at hfind
        exact hfind
      have hch : ¬ c.id = p'.id := by rw [hid, hp]; exact hc
      have h1 : saveRow (c :: cs) p' = c :: saveRow cs p' := by
        simp [saveRow, hch]
      rw [h1, findByPk, List.find?_cons_of_neg _ (by simp [hc])]
      exact ih hfind'

/-- When the row is present, `getPost` answers 200 carrying it. -/
theorem getPost_found (store : List Comment) (postID : String) (p : Comment)
    (hfind : findByPk store postID = some p) :
    getPost store postID = ⟨200, some ⟨some p, none⟩⟩ := by
  unfold getPost; rw [hfind]

/-- The post record `updatePost` starts from is `getPost`'s `data.result`:
the row itself when present. -/
theorem getPost_result_found (store : List Comment) (postID : String)
    (p : Comment) (hfind : findByPk store postID = some p) :
    ((getPost store postID).data >>= (fun d => d.result)) = some p := by
  rw [getPost_found store postID p hfind]
  rfl

/-- `getPost`'s `data.result` is empty when the row is absent. -/
theorem getPost_result_missing (store : List Comment) (postID : String)
    (h : findByPk store postID = none) :
    ((getPost store postID).data >>= (fun d => d.result)) = none := by
  unfold getPost
  rw [h]
  rfl

/-- Saving a row whose primary key no stored row shares changes nothing. -/
theorem saveRow_of_forall_ne (store : List Comment) (row : Comment)
    (h : ∀ c ∈ store, ¬ c.id = row.id) : saveRow store row = store := by
  induction store with
  | nil => rfl
  | cons c cs ih =>
    have hc : ¬ c.id = row.id := h c (List.mem_cons_self c cs)
    have ih' : saveRow cs row = cs :=
      ih (fun x hx => h x (List.mem_cons_of_mem c hx))
    calc saveRow (c :: cs) row = c :: saveRow cs row := by simp [saveRow, hc]
    _ = c :: cs := by rw [ih']

/-- With pairwise-distinct primary keys, saving back exactly the row a
lookup found leaves the store unchanged. -/
theorem saveRow_found_self (store : List Comment) (postID : String)
    (p : Comment) (hfind : findByPk store postID = some p)
    (hnodup : (store.map Comment.id).Nodup) : saveRow store p = store := by
  have hp : p.id = postID := findByPk_id store postID p hfind
  induction store with
  | nil => rfl
  | cons c cs ih =>
    rw [List.map_cons, List.nodup_cons] at hnodup
    by_cases hc : c.id = postID
    · have hpc : p = c := by
        rw [findByPk, List.find?_cons_of_pos _ (by simp [hc])] at hfind
        exact (Option.some.inj hfind).symm
      have htail : ∀ x ∈ cs, ¬ x.id = p.id := by
        intro x hx hxe
        exact hnodup.1 (by rw [← hpc, ← hxe]; exact List.mem_map_of_mem Comment.id hx)
      calc saveRow (c :: cs) p = p :: saveRow cs p := by
            simp [saveRow, ← hpc]
      _ = c :: cs := by rw [saveRow_of_forall_ne cs p htail, hpc]
    · have hfind' : findByPk cs postID = some p := by
        rw [findByPk, List.find?_cons_of_neg _ (by simp [hc])] at hfind
        exact hfind
      have hcp : ¬ c.id = p.id := by rw [hp]; exact hc
      calc saveRow (c :: cs) p = c :: saveRow cs p := by simp [saveRow, hcp]
      _ = c :: cs := by rw [ih hfind' hnodup.2]

/-- A successful `vote` on a present row answers 204 with the row whose
score moved by `amount`, and persists exactly that row. -/
theorem vote_found (store : List Comment) (postID : String) (p : Comment)
    (amount : Int) (hfind : findByPk store postID = some p) :
    vote store postID amount true =
      (⟨204, some ⟨some { p with feedbackScore := p.feedbackScore + amount },
          none⟩⟩,
       saveRow store { p with feedbackScore := p.feedbackScore + amount }) := by
  unfold vote
  rw [getPost_found store postID p hfind]
  rfl

/-- C4: with a post stored at `postID`, voting `+1` and then `-1` with both
saves succeeding answers 204 both times and restores the stored row exactly;
in particular `feedbackScore` returns to its original value, each successful
vote having moved it by exactly the given amount. -/
theorem vote_up_then_down_identity (store : List Comment) (postID : String)
    (p : Comment) (hfind : findByPk store postID = some p) :
    (vote store postID 1 true).1.status = 204 ∧
    (vote (vote store postID 1 true).2 postID (-1) true).1.status = 204 ∧
    findByPk (vote (vote store postID 1 true).2 postID (-1) true).2 postID
      = some p := by
  have h1 := vote_found store postID p 1 hfind
  have hfind1 : findByPk
      (saveRow store { p with feedbackScore := p.feedbackScore + 1 }) postID =
      some { p with feedbackScore := p.feedbackScore + 1 } :=
    findByPk_saveRow store postID p _ hfind rfl
  have h2 := vote_found
      (saveRow store { p with feedbackScore := p.feedbackScore + 1 }) postID
      { p with feedbackScore := p.feedbackScore + 1 } (-1) hfind1
  have hback :
      ({ p with feedbackScore := p.feedbackScore + 1 + (-1) } : Comment) = p := by
    have h : p.feedbackScore + 1 + (-1) = p.feedbackScore := by ring
    rw [h]
  refine ⟨by rw [h1], ?_, ?_⟩
  · simp only [h1, h2]
  · simp only [h1, h2, hback]
    exact findByPk_saveRow _ postID
      { p with feedbackScore := p.feedbackScore + 1 } p hfind1 rfl

/-- Witness for C4 at a one-row store with `feedbackScore = 7`. -/
theorem vote_up_then_down_identity_witness :
    (vote [⟨"p1", "t", "b", "loc", 3, 7, "alice", 5⟩] "p1" 1 true).1.status
        = 204 ∧
    (vote (vote [⟨"p1", "t", "b", "loc", 3, 7, "alice", 5⟩] "p1" 1 true).2
        "p1" (-1) true).1.status = 204 ∧
    findByPk
      (vote (vote [⟨"p1", "t", "b", "loc", 3, 7, "alice", 5⟩] "p1" 1 true).2
        "p1" (-1) true).2 "p1"
      = some ⟨"p1", "t", "b", "loc", 3, 7, "alice", 5⟩ :=
  vote_up_then_down_identity [⟨"p1", "t", "b", "loc", 3, 7, "alice", 5⟩] "p1"
    ⟨"p1", "t", "b", "loc", 3, 7, "alice", 5⟩ (by decide)

/-- `vote` on an absent row passes `getPost`'s 404 answer through with the
store untouched. -/
theorem vote_missing (store : List Comment) (postID : String) (amount : Int)
    (saveOk : Bool) (h : findByPk store postID = none) :
    vote store postID amount saveOk
      = (⟨404, some ⟨none,
          some ("Post " ++ postID ++ " could not be found")⟩⟩, store) := by
  unfold vote getPost
  rw [h]

/-- `vote` on a present row whose save throws answers 400 with a message and
leaves the store unchanged. -/
theorem vote_save_fail (store : List Comment) (postID : String) (p : Comment)
    (amount : Int) (hfind : findByPk store postID = some p) :
    vote store postID amount false
      = (⟨400, some ⟨none, some ("Could not " ++
          (if amount = 1 then "upvote" else "report") ++
          " post: " ++ postID)⟩⟩, store) := by
  unfold vote
  rw [getPost_found store postID p hfind]
  rfl

/-- C1: deleting a post stored with owner `A` while calling as a distinct
user `B` answers 401 with a message and leaves the store — in particular the
post's row — exactly as it was. -/
theorem deletePost_wrong_owner_401 (store : List Comment) (A B postID : String)
    (p : Comment) (hfind : findByPk store postID = some p)
    (howner : p.UserId = A) (hne : A ≠ B) :
    deletePost store B postID =
      (⟨401, some ⟨none, some "Unauthorized to delete the post."⟩⟩, store) := by
  unfold deletePost
  rw [hfind]
  simp [howner, hne]

/-- Witness for C1 at a concrete store: owner `"alice"`, caller `"bob"`. -/
theorem deletePost_wrong_owner_401_witness :
    deletePost [⟨"p1", "t", "b", "loc", 3, 0, "alice", 5⟩] "bob" "p1" =
      (⟨401, some ⟨none, some "Unauthorized to delete the post."⟩⟩,
       [⟨"p1", "t", "b", "loc", 3, 0, "alice", 5⟩]) :=
  deletePost_wrong_owner_401 _ "alice" "bob" _
    ⟨"p1", "t", "b", "loc", 3, 0, "alice", 5⟩ (by decide) rfl (by decide)

/-- C2 as stated is false: here all four optional fields are supplied
(`title = some ""`), yet the answer is 400 — neither 500 nor 200 — and no
record is created. -/
theorem createPost_supplied_counterexample :
    (createPost [] "u" (some "") (some "B") (some "L") (some 0)
        "n1" 9 true).1.status = 400 ∧
    (createPost [] "u" (some "") (some "B") (some "L") (some 0)
        "n1" 9 true).1.status ≠ 500 ∧
    (createPost [] "u" (some "") (some "B") (some "L") (some 0)
        "n1" 9 true).1.status ≠ 200 ∧
    (createPost [] "u" (some "") (some "B") (some "L") (some 0)
        "n1" 9 true).2 = [] := by
  decide

/-- C2 amended: a missing-or-empty `title`, `body` or `location`, or a
missing `capacity`, answers 400 with a message and creates nothing; when all
four are supplied with the three strings non-empty, the answer is 500 with
the store unchanged when the insert returns no row, and 200 with the created
record in `data.result` (and the record appended to the store) otherwise. -/
theorem createPost_spec (store : List Comment) (userID t b l : String)
    (cap : Int) (newId : String) (createdAt : Nat)
    (ht : t ≠ "") (hb : b ≠ "") (hl : l ≠ "") :
    (createPost store userID (some t) (some b) (some l) (some cap)
        newId createdAt false
      = (⟨500, some ⟨none, some "Could not create the new post"⟩⟩, store)) ∧
    (createPost store userID (some t) (some b) (some l) (some cap)
        newId createdAt true
      = (⟨200, some ⟨some ⟨newId, t, b, l, cap, 0, userID, createdAt⟩, none⟩⟩,
         store ++ [⟨newId, t, b, l, cap, 0, userID, createdAt⟩])) ∧
    (∀ (title body location : Option String) (capacity : Option Int)
        (createOk : Bool),
      (strFalsy title || strFalsy body || strFalsy location
          || capacity.isNone) = true →
      createPost store userID title body location capacity
          newId createdAt createOk
        = (⟨400, some ⟨none, some "Missing fields."⟩⟩, store)) := by
  refine ⟨?_, ?_, ?_⟩
  · simp [createPost, strFalsy, ht, hb, hl]
  · simp [createPost, strFalsy, ht, hb, hl]
  · intro title body location capacity createOk hguard
    simp [createPost, hguard]

/-- Witness for C2 (amended) at concrete inputs: a failing insert, a
successful insert, and a missing `title`. -/
theorem createPost_spec_witness :
    (createPost [] "u" (some "T") (some "B") (some "L") (some 4)
        "n1" 9 false
      = (⟨500, some ⟨none, some "Could not create the new post"⟩⟩, [])) ∧
    (createPost [] "u" (some "T") (some "B") (some "L") (some 4)
        "n1" 9 true
      = (⟨200, some ⟨some ⟨"n1", "T", "B", "L", 4, 0, "u", 9⟩, none⟩⟩,
         [⟨"n1", "T", "B", "L", 4, 0, "u", 9⟩])) ∧
    (createPost [] "u" none (some "B") (some "L") (some 4) "n1" 9 true
      = (⟨400, some ⟨none, some "Missing fields."⟩⟩, [])) := by
  obtain ⟨h500, h200, h400⟩ :=
    createPost_spec [] "u" "T" "B" "L" 4 "n1" 9
      (by decide) (by decide) (by decide)
  exact ⟨h500, h200, h400 none (some "B") (some "L") (some 4) true (by decide)⟩

/-- C9: `createPost` treats an empty `title`, `body` or `location` as
missing (400, nothing created), while `capacity = 0` counts as present: with
non-empty strings and capacity `0` the answer is never 400, and a successful
insert creates the row with capacity `0`. -/
theorem createPost_empty_vs_zero (store : List Comment) (userID : String)
    (t b l : String) (title body location : Option String)
    (capacity : Option Int) (newId : String) (createdAt : Nat)
    (createOk : Bool) (ht : t ≠ "") (hb : b ≠ "") (hl : l ≠ "") :
    (createPost store userID (some "") body location capacity
        newId createdAt createOk
      = (⟨400, some ⟨none, some "Missing fields."⟩⟩, store)) ∧
    (createPost store userID title (some "") location capacity
        newId createdAt createOk
      = (⟨400, some ⟨none, some "Missing fields."⟩⟩, store)) ∧
    (createPost store userID title body (some "") capacity
        newId createdAt createOk
      = (⟨400, some ⟨none, some "Missing fields."⟩⟩, store)) ∧
    ((createPost store userID (some t) (some b) (some l) (some 0)
        newId createdAt createOk).1.status ≠ 400) ∧
    (createPost store userID (some t) (some b) (some l) (some 0)
        newId createdAt true
      = (⟨200, some ⟨some ⟨newId, t, b, l, 0, 0, userID, createdAt⟩, none⟩⟩,
         store ++ [⟨newId, t, b, l, 0, 0, userID, createdAt⟩])) := by
  refine ⟨by simp [createPost, strFalsy], by simp [createPost, strFalsy],
    by simp [createPost, strFalsy], ?_, by simp [createPost, strFalsy, ht, hb, hl]⟩
  cases createOk <;> simp [createPost, strFalsy, ht, hb, hl]

/-- Witness for C9 at concrete inputs. -/
theorem createPost_empty_vs_zero_witness :
    (createPost [] "u" (some "") (some "B") (some "L") (some 4)
        "n1" 9 true
      = (⟨400, some ⟨none, some "Missing fields."⟩⟩, [])) ∧
    (createPost [] "u" (some "T") (some "") (some "L") (some 4)
        "n1" 9 true
      = (⟨400, some ⟨none, some "Missing fields."⟩⟩, [])) ∧
    (createPost [] "u" (some "T") (some "B") (some "") (some 4)
        "n1" 9 true
      = (⟨400, some ⟨none, some "Missing fields."⟩⟩, [])) ∧
    ((createPost [] "u" (some "T") (some "B") (some "L") (some 0)
        "n1" 9 true).1.status ≠ 400) ∧
    (createPost [] "u" (some "T") (some "B") (some "L") (some 0)
        "n1" 9 true
      = (⟨200, some ⟨some ⟨"n1", "T", "B", "L", 0, 0, "u", 9⟩, none⟩⟩,
         [⟨"n1", "T", "B", "L", 0, 0, "u", 9⟩])) :=
  createPost_empty_vs_zero [] "u" "T" "B" "L" (some "T") (some "B") (some "L")
    (some 4) "n1" 9 true (by decide) (by decide) (by decide)

/-- C10: updating an existing post stored with a different owner answers 401
with a message and leaves the store — hence every field of every row —
unchanged, whatever optional fields were supplied. -/
theorem updatePost_wrong_owner_401 (store : List Comment)
    (currentUserId postID : String) (title body location : Option String)
    (capacity : Option Int) (saveOk : Bool) (p : Comment)
    (hfind : findByPk store postID = some p)
    (hne : p.UserId ≠ currentUserId) :
    updatePost store currentUserId postID title body location capacity saveOk
      = (⟨401, some ⟨none, some "Not authorized to edit this post."⟩⟩,
         store) := by
  unfold updatePost
  rw [getPost_result_found store postID p hfind]
  simp [hne]

/-- Witness for C10: caller `"bob"`, stored owner `"alice"`, every optional
field supplied. -/
theorem updatePost_wrong_owner_401_witness :
    updatePost [⟨"p1", "t", "b", "loc", 3, 0, "alice", 5⟩] "bob" "p1"
        (some "T") (some "B") (some "L") (some 4) true
      = (⟨401, some ⟨none, some "Not authorized to edit this post."⟩⟩,
         [⟨"p1", "t", "b", "loc", 3, 0, "alice", 5⟩]) :=
  updatePost_wrong_owner_401 _ "bob" "p1" (some "T") (some "B") (some "L")
    (some 4) true ⟨"p1", "t", "b", "loc", 3, 0, "alice", 5⟩
    (by decide) (by decide)

/-- C6: updating an owned post with no optional fields supplied answers 200
with the unchanged record and, primary keys being pairwise distinct, leaves
the store — every field of the post — exactly as it was (the save is assumed
to go through, else the method answers 500). -/
theorem updatePost_no_fields_unchanged (store : List Comment)
    (currentUserId postID : String) (p : Comment)
    (hfind : findByPk store postID = some p)
    (howner : p.UserId = currentUserId)
    (hnodup : (store.map Comment.id).Nodup) :
    updatePost store currentUserId postID none none none none true
      = (⟨200, some ⟨some p, none⟩⟩, store) := by
  unfold updatePost
  rw [getPost_result_found store postID p hfind]
  have hsaved : ({ p with
      title := jsOrStr none p.title,
      body := jsOrStr none p.body,
      location := jsOrStr none p.location,
      capacity := jsOrInt none p.capacity } : Comment) = p := rfl
  simp only [howner, if_pos rfl, if_true]
  rw [← howner, hsaved, saveRow_found_self store postID p hfind hnodup]

/-- Witness for C6 on a two-row store. -/
theorem updatePost_no_fields_unchanged_witness :
    updatePost [⟨"p1", "t", "b", "loc", 3, 2, "alice", 5⟩,
        ⟨"p2", "u", "c", "m", 4, 1, "bob", 6⟩] "alice" "p1"
        none none none none true
      = (⟨200, some ⟨some ⟨"p1", "t", "b", "loc", 3, 2, "alice", 5⟩, none⟩⟩,
         [⟨"p1", "t", "b", "loc", 3, 2, "alice", 5⟩,
          ⟨"p2", "u", "c", "m", 4, 1, "bob", 6⟩]) :=
  updatePost_no_fields_unchanged _ "alice" "p1"
    ⟨"p1", "t", "b", "loc", 3, 2, "alice", 5⟩
    (by decide) (by decide) (by decide)

/-- C3 as stated is false: the owner supplies `capacity = 0` on a post whose
stored capacity is `5`; the update succeeds with status 200, yet the
returned record keeps capacity `5` rather than the supplied value `0`. -/
theorem updatePost_supplied_zero_counterexample :
    (updatePost [⟨"p1", "t", "b", "loc", 5, 0, "u", 9⟩] "u" "p1"
        none none none (some 0) true).1
      = ⟨200, some ⟨some ⟨"p1", "t", "b", "loc", 5, 0, "u", 9⟩, none⟩⟩ ∧
    (0 : Int) ≠ 5 := by
  decide

/-- C3 amended: on an existing post owned by the caller, a successful
`updatePost` answers 200 with the record whose every field is
`supplied || existing` — a supplied truthy value (non-empty string, nonzero
capacity) replaces the stored one, while an unsupplied or falsy supplied
value keeps the prior stored value — and that record is persisted; a
persistence exception answers 500 with the store untouched; a post owned by
a different user answers 401; a missing post answers 404. -/
theorem updatePost_spec (store : List Comment)
    (currentUserId postID : String) (title body location : Option String)
    (capacity : Option Int) (p : Comment)
    (hfind : findByPk store postID = some p) :
    (p.UserId = currentUserId →
      updatePost store currentUserId postID title body location capacity true
        = (⟨200, some ⟨some ⟨p.id, jsOrStr title p.title, jsOrStr body p.body,
              jsOrStr location p.location, jsOrInt capacity p.capacity,
              p.feedbackScore, p.UserId, p.createdAt⟩, none⟩⟩,
           saveRow store ⟨p.id, jsOrStr title p.title, jsOrStr body p.body,
              jsOrStr location p.location, jsOrInt capacity p.capacity,
              p.feedbackScore, p.UserId, p.createdAt⟩)) ∧
    (p.UserId = currentUserId →
      updatePost store currentUserId postID title body location capacity false
        = (⟨500, some ⟨none, some "Could not update the post."⟩⟩, store)) ∧
    (p.UserId ≠ currentUserId → ∀ saveOk : Bool,
      updatePost store currentUserId postID title body location capacity
          saveOk
        = (⟨401, some ⟨none, some "Not authorized to edit this post."⟩⟩,
           store)) ∧
    (∀ pid2, findByPk store pid2 = none → ∀ saveOk : Bool,
      updatePost store currentUserId pid2 title body location capacity saveOk
        = (⟨404, some ⟨none, some "Could not find post."⟩⟩, store)) := by
  refine ⟨?_, ?_, ?_, ?_⟩
  · intro howner
    unfold updatePost
    rw [getPost_result_found store postID p hfind]
    simp [howner]
  · intro howner
    unfold updatePost
    rw [getPost_result_found store postID p hfind]
    simp [howner]
  · intro hne saveOk
    unfold updatePost
    rw [getPost_result_found store postID p hfind]
    simp [hne]
  · intro pid2 hmiss saveOk
    unfold updatePost
    rw [getPost_result_missing store pid2 hmiss]

/-- Witness for C3 (amended): a successful merge where a supplied non-empty
title wins and a supplied zero capacity falls back to the stored value, a
failing save, a non-owner call and a missing post, all concrete. -/
theorem updatePost_spec_witness :
    (updatePost [⟨"p1", "t", "b", "loc", 5, 6, "u", 9⟩] "u" "p1"
        (some "T") none none (some 0) true
      = (⟨200, some ⟨some ⟨"p1", "T", "b", "loc", 5, 6, "u", 9⟩, none⟩⟩,
         [⟨"p1", "T", "b", "loc", 5, 6, "u", 9⟩])) ∧
    (updatePost [⟨"p1", "t", "b", "loc", 5, 6, "u", 9⟩] "u" "p1"
        (some "T") none none (some 0) false
      = (⟨500, some ⟨none, some "Could not update the post."⟩⟩,
         [⟨"p1", "t", "b", "loc", 5, 6, "u", 9⟩])) ∧
    (updatePost [⟨"p1", "t", "b", "loc", 5, 6, "u", 9⟩] "w" "p1"
        (some "T") none none (some 0) true
      = (⟨401, some ⟨none, some "Not authorized to edit this post."⟩⟩,
         [⟨"p1", "t", "b", "loc", 5, 6, "u", 9⟩])) ∧
    (updatePost [⟨"p1", "t", "b", "loc", 5, 6, "u", 9⟩] "u" "nope"
        (some "T") none none (some 0) true
      = (⟨404, some ⟨none, some "Could not find post."⟩⟩,
         [⟨"p1", "t", "b", "loc", 5, 6, "u", 9⟩])) := by
  obtain ⟨h200, h500, _, h404⟩ :=
    updatePost_spec [⟨"p1", "t", "b", "loc", 5, 6, "u", 9⟩] "u" "p1"
      (some "T") none none (some 0)
      ⟨"p1", "t", "b", "loc", 5, 6, "u", 9⟩ (by decide)
  obtain ⟨_, _, h401, _⟩ :=
    updatePost_spec [⟨"p1", "t", "b", "loc", 5, 6, "u", 9⟩] "w" "p1"
      (some "T") none none (some 0)
      ⟨"p1", "t", "b", "loc", 5, 6, "u", 9⟩ (by decide)
  exact ⟨(h200 rfl).trans (by decide), h500 rfl,
    h401 (by decide) true, h404 "nope" (by decide) true⟩

/-- C5: the limit `getComments` hands the query is `min(limit, 50)`, so any
returned row set has at most `min(limit, 50)` — in particular at most 50 —
rows, ordered by creation time descending, the offset having been applied to
the sorted rows before the limit. -/
theorem getComments_limit_clamped (store : List Comment) (postID : String)
    (limit offset : Nat) (rows : List Comment)
    (hres : (getComments store postID limit offset).data.result
      = some rows) :
    (if limit > MAX_RESULTS then MAX_RESULTS else limit) = min limit 50 ∧
    rows.length ≤ min limit 50 ∧
    rows.length ≤ 50 ∧
    rows.Sorted createdDesc ∧
    rows = ((List.insertionSort createdDesc store).drop offset).take
      (min limit 50) := by
  have hclamp : (if limit > MAX_RESULTS then MAX_RESULTS else limit)
      = min limit 50 := by
    unfold MAX_RESULTS
    split <;> omega
  cases hfind : findByPk store postID with
  | none =>
    exfalso
    unfold getComments ormQuery at hres
    rw [hfind] at hres
    simp at hres
  | some p =>
    unfold getComments ormQuery at hres
    rw [hfind] at hres
    have hrows : rows = ((List.insertionSort createdDesc store).drop
        offset).take (if limit > MAX_RESULTS then MAX_RESULTS else limit) := by
      simpa using hres.symm
    rw [hclamp] at hrows
    have hsorted : (List.insertionSort createdDesc store).Sorted createdDesc :=
      List.sorted_insertionSort createdDesc store
    refine ⟨hclamp, ?_, ?_, ?_, hrows⟩
    · rw [hrows]
      exact List.length_take_le _ _
    · rw [hrows]
      exact le_trans (List.length_take_le _ _) (Nat.min_le_right _ _)
    · rw [hrows]
      exact List.Pairwise.sublist
        ((List.take_sublist _ _).trans (List.drop_sublist _ _)) hsorted

/-- Witness for C5: two stored rows, `limit = 60`; both rows come back,
newest first. -/
theorem getComments_limit_clamped_witness :
    (if 60 > MAX_RESULTS then MAX_RESULTS else 60) = min 60 50 ∧
    ([⟨"p2", "u", "c", "m", 4, 1, "bob", 9⟩,
      ⟨"p1", "t", "b", "loc", 3, 2, "alice", 5⟩] : List Comment).length
      ≤ min 60 50 ∧
    ([⟨"p2", "u", "c", "m", 4, 1, "bob", 9⟩,
      ⟨"p1", "t", "b", "loc", 3, 2, "alice", 5⟩] : List Comment).length
      ≤ 50 ∧
    ([⟨"p2", "u", "c", "m", 4, 1, "bob", 9⟩,
      ⟨"p1", "t", "b", "loc", 3, 2, "alice", 5⟩] : List Comment).Sorted
        createdDesc ∧
    ([⟨"p2", "u", "c", "m", 4, 1, "bob", 9⟩,
      ⟨"p1", "t", "b", "loc", 3, 2, "alice", 5⟩] : List Comment)
      = ((List.insertionSort createdDesc
          [⟨"p1", "t", "b", "loc", 3, 2, "alice", 5⟩,
           ⟨"p2", "u", "c", "m", 4, 1, "bob", 9⟩]).drop 0).take (min 60 50) :=
  getComments_limit_clamped
    [⟨"p1", "t", "b", "loc", 3, 2, "alice", 5⟩,
     ⟨"p2", "u", "c", "m", 4, 1, "bob", 9⟩] "p1" 60 0
    [⟨"p2", "u", "c", "m", 4, 1, "bob", 9⟩,
     ⟨"p1", "t", "b", "loc", 3, 2, "alice", 5⟩] (by decide)

/-- C8: fetching an absent post ID answers 404 with a message and no
`result` populated, on `getComment`, on `getComments`, and on `deletePost`
(whose store is also untouched). -/
theorem missing_post_404 (store : List Comment) (postID userID : String)
    (limit offset : Nat) (h : findByPk store postID = none) :
    getComment store postID userID
      = ⟨404, some ⟨none,
          some ("Post " ++ postID ++ " could not be found")⟩⟩ ∧
    getComments store postID limit offset
      = ⟨404, ⟨none, none,
          some ("Post " ++ postID ++ " could not be found")⟩⟩ ∧
    deletePost store userID postID
      = (⟨404, some ⟨none,
          some ("Post " ++ postID ++ " could not be deleted.")⟩⟩, store) := by
  refine ⟨?_, ?_, ?_⟩
  · unfold getComment
    rw [h]
  · unfold getComments ormQuery
    rw [h]
  · unfold deletePost
    rw [h]

/-- Witness for C8 on a store that does not contain the requested ID. -/
theorem missing_post_404_witness :
    getComment [⟨"p1", "t", "b", "loc", 3, 2, "alice", 5⟩] "nope" "u"
      = ⟨404, some ⟨none, some "Post nope could not be found"⟩⟩ ∧
    getComments [⟨"p1", "t", "b", "loc", 3, 2, "alice", 5⟩] "nope" 10 0
      = ⟨404, ⟨none, none, some "Post nope could not be found"⟩⟩ ∧
    deletePost [⟨"p1", "t", "b", "loc", 3, 2, "alice", 5⟩] "u" "nope"
      = (⟨404, some ⟨none, some "Post nope could not be deleted."⟩⟩,
         [⟨"p1", "t", "b", "loc", 3, 2, "alice", 5⟩]) := by
  have h := missing_post_404 [⟨"p1", "t", "b", "loc", 3, 2, "alice", 5⟩]
    "nope" "u" 10 0 (by decide)
  exact ⟨h.1, h.2.1, h.2.2⟩

/-- C7 as stated is false: a successful `vote` answers 204 with the updated
record populated in `data.result`. -/
theorem vote_204_carries_result_counterexample :
    (vote [⟨"p1", "t", "b", "loc", 3, 7, "alice", 5⟩] "p1" 1 true).1
      = ⟨204, some ⟨some ⟨"p1", "t", "b", "loc", 3, 8, "alice", 5⟩, none⟩⟩ ∧
    ((vote [⟨"p1", "t", "b", "loc", 3, 7, "alice", 5⟩] "p1" 1 true).1.data
        >>= (fun d => d.result)) ≠ none := by
  decide

/-- C7 amended: `deletePost`'s 204 answer carries no body (no `data` at
all), while `vote`'s 204 answer always carries the updated record in
`data.result` (and no `message`); no other controller method ever answers
204. -/
theorem status_204_payloads (store : List Comment)
    (userId postID userID newId : String) (amount : Int)
    (saveOk createOk : Bool) (limit offset createdAt : Nat)
    (title body location : Option String) (capacity : Option Int) :
    ((deletePost store userId postID).1.status = 204 →
      (deletePost store userId postID).1.data = none) ∧
    ((vote store postID amount saveOk).1.status = 204 →
      ∃ p : Comment,
        (vote store postID amount saveOk).1.data = some ⟨some p, none⟩) ∧
    (getComment store postID userID).status ≠ 204 ∧
    (getComments store postID limit offset).status ≠ 204 ∧
    ((createPost store userID title body location capacity newId createdAt
        createOk).1.status ≠ 204) ∧
    ((updatePost store userID postID title body location capacity
        saveOk).1.status ≠ 204) := by
  refine ⟨?_, ?_, ?_, ?_, ?_, ?_⟩
  · unfold deletePost
    cases hfind : findByPk store postID with
    | none => intro hs; simp at hs
    | some r =>
      by_cases hu : r.UserId ≠ userId
      · intro hs; simp [hu] at hs
      · intro _; simp [hu]
  · cases hfind : findByPk store postID with
    | none =>
      rw [vote_missing store postID amount saveOk hfind]
      intro hs
      simp at hs
    | some p =>
      cases saveOk with
      | true =>
        rw [vote_found store postID p amount hfind]
        intro _
        exact ⟨{ p with feedbackScore := p.feedbackScore + amount }, rfl⟩
      | false =>
        rw [vote_save_fail store postID p amount hfind]
        intro hs
        simp at hs
  · unfold getComment
    cases hfind : findByPk store postID <;> simp
  · unfold getComments ormQuery
    cases hfind : findByPk store postID <;> simp
  · unfold createPost
    by_cases hg : (strFalsy title || strFalsy body || strFalsy location
        || capacity.isNone) = true
    · simp [hg]
    · cases createOk <;> simp [hg]
  · cases hfind : findByPk store postID with
    | none =>
      unfold updatePost
      rw [getPost_result_missing store postID hfind]
      simp
    | some p =>
      unfold updatePost
      rw [getPost_result_found store postID p hfind]
      by_cases hu : p.UserId = userID
      · cases saveOk <;> simp [hu]
      · simp [hu]

/-- Witness for C7 (amended) at a one-row store owned by `"alice"`: its
`deletePost` does answer 204, its `vote` does answer 204, and the other four
methods answer something else. -/
theorem status_204_payloads_witness :
    (deletePost [⟨"p1", "t", "b", "loc", 3, 7, "alice", 5⟩]
        "alice" "p1").1.data = none ∧
    (∃ p : Comment,
      (vote [⟨"p1", "t", "b", "loc", 3, 7, "alice", 5⟩] "p1" 1 true).1.data
        = some ⟨some p, none⟩) ∧
    (getComment [⟨"p1", "t", "b", "loc", 3, 7, "alice", 5⟩]
        "p1" "alice").status ≠ 204 ∧
    (getComments [⟨"p1", "t", "b", "loc", 3, 7, "alice", 5⟩]
        "p1" 10 0).status ≠ 204 ∧
    ((createPost [⟨"p1", "t", "b", "loc", 3, 7, "alice", 5⟩] "alice"
        none none none none "n1" 9 true).1.status ≠ 204) ∧
    ((updatePost [⟨"p1", "t", "b", "loc", 3, 7, "alice", 5⟩] "alice" "p1"
        none none none none true).1.status ≠ 204) := by
  obtain ⟨hdel, hvote, hgc, hgcs, hcp, hup⟩ :=
    status_204_payloads [⟨"p1", "t", "b", "loc", 3, 7, "alice", 5⟩]
      "alice" "p1" "alice" "n1" 1 true true 10 0 9 none none none none
  exact ⟨hdel (by decide), hvote (by decide), hgc, hgcs, hcp, hup⟩

end UBoard
